import Mathlib

/-!
Shallow embedding of the vote-deduplication and session-authentication core of
the mess-portal backend (`src/models/mess_models.py`, `src/routes/mess_routes.py`,
`src/routes/admin_routes.py`).

Conventions of the embedding:
* Python `datetime.utcnow()` is modelled as a `now : Nat` parameter (seconds);
  each request handler receives a single `now`.
* Machine-level hashing (`hashlib.sha256`) is embedded as an executable SHA-256
  over `Nat` with explicit `% 2^32` arithmetic, following FIPS 180-4, which is
  what `hashlib.sha256(...).hexdigest()` computes.
* The relational store is a record of lists (one per table); SQLAlchemy
  autoincrement ids are explicit counters.
* Randomness (`secrets.token_hex`, `secrets.token_urlsafe`) is passed in as an
  explicit argument where the code draws it.
-/

namespace MessPortal

/-- Models Python `str.lower` on the ASCII strings used by the portal
(day names, meal names): maps `A`-`Z` to `a`-`z`, leaves others alone. -/
def lowerChar (c : Char) : Char :=
  if 'A' ≤ c ∧ c ≤ 'Z' then Char.ofNat (c.toNat + 32) else c

/-- Python `s.lower()` (ASCII fragment). -/
def pyLower (s : String) : String :=
  ⟨s.data.map lowerChar⟩

/-- Python `s[:n]` on a string: take the first `n` characters. -/
def pySlice (s : String) (n : Nat) : String :=
  ⟨s.data.take n⟩

/-- Python single-character `str.split(sep)` at the character-list level:
always returns (number of separators + 1) pieces, so `"".split(c) = [""]`. -/
def splitOnChar (sep : Char) : List Char → List (List Char)
  | [] => [[]]
  | c :: cs =>
    let r := splitOnChar sep cs
    if c = sep then [] :: r
    else
      match r with
      | [] => [[c]]
      | p :: ps => (c :: p) :: ps

/-- Python `s.split(sep)` for a one-character separator. -/
def pySplit (s : String) (sep : Char) : List String :=
  (splitOnChar sep s.data).map (fun l => ⟨l⟩)

/-! ## SHA-256 (FIPS 180-4), executable over `Nat` with explicit mod-2^32 -/

/-- 2^32, the word modulus. -/
def M32 : Nat := 4294967296

/-- Addition modulo 2^32. -/
def add32 (a b : Nat) : Nat := (a + b) % M32

/-- Bitwise complement within 32 bits. -/
def not32 (a : Nat) : Nat := Nat.xor a 4294967295

/-- Right rotation of a 32-bit word by `k` (for `0 < k < 32`). -/
def rotr32 (a k : Nat) : Nat := Nat.lor (a >>> k) ((a <<< (32 - k)) % M32)

/-- SHA-256 `Ch` function. -/
def ch32 (x y z : Nat) : Nat := Nat.xor (Nat.land x y) (Nat.land (not32 x) z)

/-- SHA-256 `Maj` function. -/
def maj32 (x y z : Nat) : Nat :=
  Nat.xor (Nat.xor (Nat.land x y) (Nat.land x z)) (Nat.land y z)

/-- SHA-256 `Σ0`. -/
def bigSigma0 (x : Nat) : Nat :=
  Nat.xor (Nat.xor (rotr32 x 2) (rotr32 x 13)) (rotr32 x 22)

/-- SHA-256 `Σ1`. -/
def bigSigma1 (x : Nat) : Nat :=
  Nat.xor (Nat.xor (rotr32 x 6) (rotr32 x 11)) (rotr32 x 25)

/-- SHA-256 `σ0`. -/
def smallSigma0 (x : Nat) : Nat :=
  Nat.xor (Nat.xor (rotr32 x 7) (rotr32 x 18)) (x >>> 3)

/-- SHA-256 `σ1`. -/
def smallSigma1 (x : Nat) : Nat :=
  Nat.xor (Nat.xor (rotr32 x 17) (rotr32 x 19)) (x >>> 10)

/-- The 64 SHA-256 round constants (FIPS 180-4 §4.2.2), written in decimal. -/
def sha256K : List Nat :=
  [1116352408, 1899447441, 3049323471, 3921009573, 961987163,
   1508970993, 2453635748, 2870763221, 3624381080, 310598401,
   607225278, 1426881987, 1925078388, 2162078206, 2614888103,
   3248222580, 3835390401, 4022224774, 264347078, 604807628,
   770255983, 1249150122, 1555081692, 1996064986, 2554220882,
   2821834349, 2952996808, 3210313671, 3336571891, 3584528711,
   113926993, 338241895, 666307205, 773529912, 1294757372,
   1396182291, 1695183700, 1986661051, 2177026350, 2456956037,
   2730485921, 2820302411, 3259730800, 3345764771, 3516065817,
   3600352804, 4094571909, 275423344, 430227734, 506948616,
   659060556, 883997877, 958139571, 1322822218, 1537002063,
   1747873779, 1955562222, 2024104815, 2227730452, 2361852424,
   2428436474, 2756734187, 3204031479, 3329325298]

/-- Eight 32-bit working words of the SHA-256 state. -/
structure Hash8 where
  a : Nat
  b : Nat
  c : Nat
  d : Nat
  e : Nat
  f : Nat
  g : Nat
  h : Nat
deriving Repr, DecidableEq

/-- SHA-256 initial hash value (FIPS 180-4 §5.3.3), written in decimal. -/
def sha256Init : Hash8 :=
  ⟨1779033703, 3144134277, 1013904242, 2773480762,
   1359893119, 2600822924, 528734635, 1541459225⟩

/-- One SHA-256 round: `kw` is the pair (round constant, schedule word). -/
def sha256Round (s : Hash8) (kw : Nat × Nat) : Hash8 :=
  let t1 := add32 (add32 (add32 (add32 s.h (bigSigma1 s.e)) (ch32 s.e s.f s.g)) kw.1) kw.2
  let t2 := add32 (bigSigma0 s.a) (maj32 s.a s.b s.c)
  ⟨add32 t1 t2, s.a, s.b, s.c, add32 s.d t1, s.e, s.f, s.g⟩

/-- Split a list into chunks of `n` elements, structurally recursive on a fuel
argument so that it reduces in the kernel; `fuel ≥ l.length` and `n > 0` make
the fuel irrelevant. -/
def chunksOfAux (n : Nat) : Nat → List Nat → List (List Nat)
  | _, [] => []
  | 0, _ :: _ => []
  | fuel + 1, l => l.take n :: chunksOfAux n fuel (l.drop n)

/-- Split a list into chunks of `n` elements (`n > 0`; the last chunk may be
shorter). -/
def chunksOf (n : Nat) (l : List Nat) : List (List Nat) :=
  chunksOfAux n l.length l

/-- Big-endian word from a list of (at most four) bytes. -/
def wordOfBytes (bs : List Nat) : Nat := bs.foldl (fun acc b => acc * 256 + b) 0

/-- The 64-entry message schedule from a 64-byte block. -/
def sha256Schedule (block : List Nat) : List Nat :=
  let w16 := (chunksOf 4 block).map wordOfBytes
  (List.range 48).foldl
    (fun ws _ =>
      let n := ws.length
      ws ++ [add32 (add32 (add32 (smallSigma1 (ws.getD (n - 2) 0)) (ws.getD (n - 7) 0))
                     (smallSigma0 (ws.getD (n - 15) 0))) (ws.getD (n - 16) 0)])
    w16

/-- Process one 64-byte block. -/
def sha256Block (H : Hash8) (block : List Nat) : Hash8 :=
  let ws := sha256Schedule block
  let t := (sha256K.zip ws).foldl sha256Round H
  ⟨add32 H.a t.a, add32 H.b t.b, add32 H.c t.c, add32 H.d t.d,
   add32 H.e t.e, add32 H.f t.f, add32 H.g t.g, add32 H.h t.h⟩

/-- The eight big-endian length bytes of the padding. -/
def lenBytes8 (n : Nat) : List Nat :=
  [n / 2 ^ 56 % 256, n / 2 ^ 48 % 256, n / 2 ^ 40 % 256, n / 2 ^ 32 % 256,
   n / 2 ^ 24 % 256, n / 2 ^ 16 % 256, n / 2 ^ 8 % 256, n % 256]

/-- SHA-256 message padding: `0x80`, zeros to 56 mod 64, then the bit length. -/
def sha256Pad (msg : List Nat) : List Nat :=
  let l := msg.length
  msg ++ 0x80 :: List.replicate ((64 - (l + 9) % 64) % 64) 0 ++ lenBytes8 (8 * l)

/-- SHA-256 over a byte list, producing the eight final state words. -/
def sha256Words (msg : List Nat) : Hash8 :=
  (chunksOf 64 (sha256Pad msg)).foldl sha256Block sha256Init

/-- The four big-endian bytes of a 32-bit word. -/
def wordBytes (w : Nat) : List Nat :=
  [w / 2 ^ 24 % 256, w / 2 ^ 16 % 256, w / 2 ^ 8 % 256, w % 256]

/-- The 32 digest bytes. -/
def digestBytes (H : Hash8) : List Nat :=
  wordBytes H.a ++ wordBytes H.b ++ wordBytes H.c ++ wordBytes H.d ++
  wordBytes H.e ++ wordBytes H.f ++ wordBytes H.g ++ wordBytes H.h

/-- Lower-case hexadecimal digit characters. -/
def hexChars : List Char := "0123456789abcdef".data

/-- The hex character for a digit value. -/
def hexDigitChar (n : Nat) : Char := hexChars.getD n '0'

/-- Two lower-case hex characters per byte, as in Python `hexdigest()`. -/
def hexOfBytes (bs : List Nat) : List Char :=
  bs.foldr (fun b acc => hexDigitChar (b / 16) :: hexDigitChar (b % 16) :: acc) []

/-- UTF-8 encoding of one character, as Python `str.encode()`. -/
def utf8Char (c : Char) : List Nat :=
  let n := c.toNat
  if n < 0x80 then [n]
  else if n < 0x800 then [0xC0 + n / 64, 0x80 + n % 64]
  else if n < 0x10000 then [0xE0 + n / 4096, 0x80 + n / 64 % 64, 0x80 + n % 64]
  else [0xF0 + n / 262144, 0x80 + n / 4096 % 64, 0x80 + n / 64 % 64, 0x80 + n % 64]

/-- UTF-8 encoding of a string, as Python `str.encode()`. -/
def utf8Bytes (s : String) : List Nat :=
  s.data.foldr (fun c acc => utf8Char c ++ acc) []

/-- Python `hashlib.sha256(s.encode()).hexdigest()`. -/
def sha256Hex (s : String) : String :=
  ⟨hexOfBytes (digestBytes (sha256Words (utf8Bytes s)))⟩

/-! ## Identity deriver and password hashing (`src/models/mess_models.py`) -/

/-- `create_user_identifier(ip_address, user_agent, additional_data=None)`:
SHA-256 of `"{ip}:{ua}"`, with `":{additional_data}"` appended when
`additional_data` is truthy (non-`None`, non-empty), truncated to the first 32
hex characters. -/
def create_user_identifier (ip_address user_agent : String)
    (additional_data : Option String) : String :=
  let identifier_data := ip_address ++ ":" ++ user_agent
  let identifier_data :=
    match additional_data with
    | some extra => if extra = "" then identifier_data
                    else identifier_data ++ ":" ++ extra
    | none => identifier_data
  pySlice (sha256Hex identifier_data) 32

/-- `AdminUser.hash_password(password)`: the random `salt = secrets.token_hex(16)`
is passed explicitly; result is `"{salt}:{sha256(password + salt)}"`. -/
def hash_password (password salt : String) : String :=
  salt ++ ":" ++ sha256Hex (password ++ salt)

/-- `AdminUser.verify_password(self, password)`: split the stored hash on `:`;
the Python two-variable unpacking raises `ValueError` unless there are exactly
two fields, which the `except ValueError` turns into `False`. -/
def verify_password (password stored : String) : Bool :=
  match pySplit stored ':' with
  | [salt, stored_hash] => sha256Hex (password ++ salt) == stored_hash
  | _ => false

/-! ## Data model (`src/models/mess_models.py`) -/

/-- A row of the `votes` table. -/
structure Vote where
  id : Nat
  day : String
  meal : String
  dish : String
  user_identifier : String
  ip_address : String
  timestamp : Nat
  session_id : String
deriving Repr, DecidableEq

/-- A bearer token as seen by `jwt.decode` with the server's HS256 secret:
`signed` tokens are exactly those produced by `generate_jwt_token` (payload
`admin_id`, `exp`); any other string fails signature/format verification and is
modelled as `garbage`. -/
inductive Token where
  | signed (admin_id : Nat) (exp : Nat)
  | garbage (raw : String)
deriving Repr, DecidableEq

/-- A row of the `admin_users` table. -/
structure AdminUser where
  id : Nat
  username : String
  password_hash : String
  email : String
  created_at : Nat
  last_login : Option Nat
  is_active : Bool
deriving Repr, DecidableEq

/-- A row of the `admin_sessions` table. -/
structure AdminSession where
  id : Nat
  admin_id : Nat
  token : Token
  created_at : Nat
  expires_at : Nat
  ip_address : String
deriving Repr, DecidableEq

/-- The relational store: one list per table touched by the core, plus the
autoincrement counters. -/
structure Db where
  votes : List Vote
  admin_users : List AdminUser
  admin_sessions : List AdminSession
  next_vote_id : Nat
  next_session_id : Nat
deriving Repr, DecidableEq

/-! ## Session sweep and JWT validation (`src/routes/admin_routes.py`) -/

/-- `cleanup_expired_sessions()`: delete every `AdminSession` with
`expires_at < datetime.utcnow()` and return how many were deleted. -/
def cleanup_expired_sessions (now : Nat) (s : Db) : Nat × Db :=
  let expired := s.admin_sessions.filter (fun x => x.expires_at < now)
  (expired.length,
   { s with admin_sessions := s.admin_sessions.filter (fun x => ¬ x.expires_at < now) })

/-- `generate_jwt_token(admin_id)`: payload `admin_id` with
`exp = utcnow() + 1 hour` (`JWT_EXPIRATION_HOURS = 1`), signed with the server
secret. Time is in seconds. -/
def generate_jwt_token (admin_id : Nat) (now : Nat) : Token :=
  Token.signed admin_id (now + 3600)

/-- `verify_jwt_token(token)`: `jwt.decode` returns the payload `admin_id` for a
correctly signed token whose `exp` has not passed, and `None` on
`ExpiredSignatureError` or `InvalidTokenError`. -/
def verify_jwt_token (token : Token) (now : Nat) : Option Nat :=
  match token with
  | Token.garbage _ => none
  | Token.signed admin_id exp => if exp ≤ now then none else some admin_id

/-- Outcome of the `require_admin_auth` guard. -/
inductive AuthResult where
  /-- 401 `UNAUTHORIZED`: missing or non-`Bearer` Authorization header. -/
  | unauthorized
  /-- 401 `INVALID_TOKEN`: `verify_jwt_token` returned a falsy value. -/
  | invalidToken
  /-- 401 `ADMIN_NOT_FOUND`: no such admin, or the admin is inactive. -/
  | adminNotFound
  /-- The request proceeds with `request.current_admin` set. -/
  | ok (admin : AdminUser)
deriving Repr, DecidableEq

/-- `require_admin_auth`: first the sweep, then header check, then JWT
verification, then the active-admin lookup.  The HTTP layer's `Bearer <token>`
parsing is abstracted: `authHeader = none` stands for a missing or non-Bearer
header (spec §6: the core receives already-parsed input).  Python's
`if not admin_id` also rejects a zero id (falsiness). -/
def require_admin_auth (now : Nat) (authHeader : Option Token) (s : Db) :
    AuthResult × Db :=
  let s1 := (cleanup_expired_sessions now s).2
  match authHeader with
  | none => (AuthResult.unauthorized, s1)
  | some token =>
    match verify_jwt_token token now with
    | none => (AuthResult.invalidToken, s1)
    | some admin_id =>
      if admin_id = 0 then (AuthResult.invalidToken, s1)
      else
        match s1.admin_users.find? (fun a => a.id == admin_id) with
        | none => (AuthResult.adminNotFound, s1)
        | some admin =>
          if ¬ admin.is_active then (AuthResult.adminNotFound, s1)
          else (AuthResult.ok admin, s1)

/-! ## Login and password change (`src/routes/admin_routes.py`) -/

/-- Outcome of `admin_login`. -/
inductive LoginResult where
  /-- 401 `INVALID_CREDENTIALS`: unknown username or wrong password. -/
  | invalidCredentials
  /-- 401 `ACCOUNT_DISABLED`: principal exists, password verifies, inactive. -/
  | accountDisabled
  /-- 200: token, `expires_in` seconds, and the admin id. -/
  | success (token : Token) (expires_in : Nat) (admin_id : Nat)
deriving Repr, DecidableEq

/-- `admin_login`: find the user, check the password, check the active flag,
then issue a JWT, set `last_login`, and record an `AdminSession` whose `token`
field is overwritten with the JWT and whose `expires_at` is `now + 1 hour`
(`AdminSession.create_session` with `expires_in_hours=1`). -/
def admin_login (now : Nat) (username password ip_address : String) (s : Db) :
    LoginResult × Db :=
  match s.admin_users.find? (fun a => a.username == username) with
  | none => (LoginResult.invalidCredentials, s)
  | some admin =>
    if ¬ verify_password password admin.password_hash then
      (LoginResult.invalidCredentials, s)
    else if ¬ admin.is_active then
      (LoginResult.accountDisabled, s)
    else
      let token := generate_jwt_token admin.id now
      let session : AdminSession :=
        { id := s.next_session_id, admin_id := admin.id, token := token,
          created_at := now, expires_at := now + 3600, ip_address := ip_address }
      (LoginResult.success token 3600 admin.id,
       { s with
         admin_users := s.admin_users.map
           (fun a => if a.id == admin.id then { a with last_login := some now } else a),
         admin_sessions := s.admin_sessions ++ [session],
         next_session_id := s.next_session_id + 1 })

/-- Outcome of `change_password`. -/
inductive PasswordResult where
  /-- 400 `MISSING_FIELD`: a required field is absent or falsy. -/
  | missingField (field : String)
  /-- 400 `INVALID_PASSWORD`: current password does not verify. -/
  | invalidPassword
  /-- 400 `WEAK_PASSWORD`: new password shorter than 6 characters. -/
  | weakPassword
  /-- 200: password updated, sessions revoked. -/
  | success
deriving Repr, DecidableEq

/-- `change_password`, acting as `request.current_admin = admin` (the principal
resolved by `require_admin_auth`): verify the current password, require at
least 6 characters, store `AdminUser.hash_password(new_password)` (fresh random
`newSalt` passed explicitly), then delete every `AdminSession` with this
`admin_id`. -/
def change_password (admin : AdminUser) (current_password new_password newSalt : String)
    (s : Db) : PasswordResult × Db :=
  if current_password = "" then (PasswordResult.missingField "current_password", s)
  else if new_password = "" then (PasswordResult.missingField "new_password", s)
  else if ¬ verify_password current_password admin.password_hash then
    (PasswordResult.invalidPassword, s)
  else if new_password.length < 6 then
    (PasswordResult.weakPassword, s)
  else
    (PasswordResult.success,
     { s with
       admin_users := s.admin_users.map
         (fun a => if a.id == admin.id then
            { a with password_hash := hash_password new_password newSalt } else a),
       admin_sessions := s.admin_sessions.filter (fun x => ¬ x.admin_id = admin.id) })

/-! ## Vote ledger (`src/routes/mess_routes.py`) -/

/-- Storage-layer failure surfaced by the database driver. -/
inductive DbError where
  /-- Violation of the `unique_vote` constraint on
  `(day, meal, user_identifier)`. -/
  | uniqueViolation
deriving Repr, DecidableEq

/-- The storage layer's `INSERT` into `votes` under the declared
`UniqueConstraint('day', 'meal', 'user_identifier')`: fails if a row with the
same key already exists, otherwise appends the row and assigns the
autoincrement id. -/
def insert_vote (s : Db) (day meal dish user_identifier ip_address session_id : String)
    (now : Nat) : Except DbError (Nat × Db) :=
  if s.votes.any (fun v => v.day == day && v.meal == meal &&
                           v.user_identifier == user_identifier) then
    Except.error DbError.uniqueViolation
  else
    let v : Vote := { id := s.next_vote_id, day := day, meal := meal, dish := dish,
                      user_identifier := user_identifier, ip_address := ip_address,
                      timestamp := now, session_id := session_id }
    Except.ok (v.id, { s with votes := s.votes ++ [v], next_vote_id := s.next_vote_id + 1 })

/-- Outcome of `submit_vote`. -/
inductive VoteResult where
  /-- 400 `MISSING_FIELD`: `day`, `meal` or `dish` absent or falsy. -/
  | missingField (field : String)
  /-- 400 `DUPLICATE_VOTE`. -/
  | duplicateVote
  /-- 201: vote persisted. -/
  | success (vote_id : Nat)
  /-- 500 `INTERNAL_ERROR`: the generic `except Exception` handler after
  `db.session.rollback()`. -/
  | internalError
deriving Repr, DecidableEq

/-- `submit_vote`, with the duplicate check (`SELECT`) and the `INSERT` allowed
to observe different store states `sCheck` and `sInsert`: this models a
concurrent interleaving in which another request commits between the two
steps.  A sequential run is `sCheck = sInsert` (see `submit_vote`).  The
`except Exception` handler rolls back and answers 500 `INTERNAL_ERROR`. -/
def submit_vote_race (sCheck sInsert : Db) (day meal dish ip_address user_agent : String)
    (now : Nat) (session_id : String) : VoteResult × Db :=
  if day = "" then (VoteResult.missingField "day", sInsert)
  else if meal = "" then (VoteResult.missingField "meal", sInsert)
  else if dish = "" then (VoteResult.missingField "dish", sInsert)
  else
    let user_identifier := create_user_identifier ip_address user_agent none
    let dayL := pyLower day
    let mealL := pyLower meal
    match sCheck.votes.find? (fun v => v.day == dayL && v.meal == mealL &&
                                       v.user_identifier == user_identifier) with
    | some _ => (VoteResult.duplicateVote, sInsert)
    | none =>
      match insert_vote sInsert dayL mealL dish user_identifier ip_address session_id now with
      | Except.ok (vote_id, s2) => (VoteResult.success vote_id, s2)
      | Except.error _ => (VoteResult.internalError, sInsert)

/-- `submit_vote` in a sequential run: check and insert see the same store. -/
def submit_vote (s : Db) (day meal dish ip_address user_agent : String)
    (now : Nat) (session_id : String) : VoteResult × Db :=
  submit_vote_race s s day meal dish ip_address user_agent now session_id

/-- Outcome of `check_vote_status` (`POST /check-vote`). -/
inductive CheckResult where
  /-- 400 `MISSING_FIELD`: `day` or `meal` absent or falsy. -/
  | missingField (field : String)
  /-- 200: `has_voted` flag and, when present, the stored vote. -/
  | status (has_voted : Bool) (vote_details : Option Vote)
deriving Repr, DecidableEq

/-- `check_vote_status`: same key derivation and case normalization as
`submit_vote`; answers `has_voted` plus the first matching stored vote. -/
def check_vote_status (s : Db) (day meal ip_address user_agent : String) :
    CheckResult × Db :=
  if day = "" then (CheckResult.missingField "day", s)
  else if meal = "" then (CheckResult.missingField "meal", s)
  else
    let user_identifier := create_user_identifier ip_address user_agent none
    match s.votes.find? (fun v => v.day == pyLower day && v.meal == pyLower meal &&
                                  v.user_identifier == user_identifier) with
    | none => (CheckResult.status false none, s)
    | some v => (CheckResult.status true (some v), s)

/-- The vote-ledger invariant: no two rows share `(day, meal, user_identifier)`. -/
def VotesUnique (votes : List Vote) : Prop :=
  votes.Pairwise (fun v w => ¬ (v.day = w.day ∧ v.meal = w.meal ∧
                                v.user_identifier = w.user_identifier))

/-- The duplicate-check predicate of `submit_vote` / `check_vote_status`. -/
def voteKey (day meal ip_address user_agent : String) : Vote → Bool :=
  fun v => v.day == pyLower day && v.meal == pyLower meal &&
           v.user_identifier == create_user_identifier ip_address user_agent none

/-- The row `submit_vote` persists on a fresh key. -/
def newVote (s : Db) (day meal dish ip_address user_agent : String) (now : Nat)
    (session_id : String) : Vote :=
  { id := s.next_vote_id, day := pyLower day, meal := pyLower meal, dish := dish,
    user_identifier := create_user_identifier ip_address user_agent none,
    ip_address := ip_address, timestamp := now, session_id := session_id }

/-! ## Helper lemmas -/

theorem length_hexOfBytes (bs : List Nat) : (hexOfBytes bs).length = 2 * bs.length := by
  induction bs with
  | nil => rfl
  | cons b bs ih =>
    show (hexDigitChar (b / 16) :: hexDigitChar (b % 16) :: hexOfBytes bs).length = _
    simp only [List.length_cons, ih]
    omega

theorem length_digestBytes (H : Hash8) : (digestBytes H).length = 32 := by
  simp [digestBytes, wordBytes]

theorem length_sha256Hex (s : String) : (sha256Hex s).length = 64 := by
  show (hexOfBytes (digestBytes (sha256Words (utf8Bytes s)))).length = 64
  rw [length_hexOfBytes, length_digestBytes]

theorem length_pySlice (s : String) (n : Nat) :
    (pySlice s n).length = min n s.length := by
  show (s.data.take n).length = min n s.data.length
  exact List.length_take n s.data

theorem hexDigitChar_ne_colon (n : Nat) : hexDigitChar n ≠ ':' := by
  unfold hexDigitChar
  rw [List.getD_eq_getElem?_getD]
  match h : hexChars[n]? with
  | none => simp
  | some c =>
    have hc : c ∈ hexChars := List.getElem?_mem h
    have : ∀ x ∈ hexChars, x ≠ ':' := by decide
    simpa using this c hc

theorem colon_not_mem_hexOfBytes (bs : List Nat) : ':' ∉ hexOfBytes bs := by
  induction bs with
  | nil => simp [hexOfBytes]
  | cons b bs ih =>
    intro hmem
    have : (':' = hexDigitChar (b / 16)) ∨ (':' = hexDigitChar (b % 16)) ∨
        ':' ∈ hexOfBytes bs := by
      simpa [hexOfBytes, List.mem_cons] using hmem
    rcases this with h | h | h
    · exact hexDigitChar_ne_colon _ h.symm
    · exact hexDigitChar_ne_colon _ h.symm
    · exact ih h

theorem splitOnChar_of_not_mem {sep : Char} {l : List Char} (h : sep ∉ l) :
    splitOnChar sep l = [l] := by
  induction l with
  | nil => rfl
  | cons c cs ih =>
    have hc : c ≠ sep := fun hcs => h (hcs ▸ List.mem_cons_self c cs)
    have hcs : sep ∉ cs := fun hm => h (List.mem_cons_of_mem c hm)
    simp [splitOnChar, hc, ih hcs]

theorem splitOnChar_append {sep : Char} {l₁ l₂ : List Char} (h : sep ∉ l₁) :
    splitOnChar sep (l₁ ++ sep :: l₂) = l₁ :: splitOnChar sep l₂ := by
  induction l₁ with
  | nil => simp [splitOnChar]
  | cons c cs ih =>
    have hc : c ≠ sep := fun hcs => h (hcs ▸ List.mem_cons_self c cs)
    have hcs : sep ∉ cs := fun hm => h (List.mem_cons_of_mem c hm)
    have hne : splitOnChar sep (cs ++ sep :: l₂) = cs :: splitOnChar sep l₂ := ih hcs
    simp [splitOnChar, hc, hne]

theorem pySplit_hash_password (password salt : String) (hs : ':' ∉ salt.data) :
    pySplit (hash_password password salt) ':' = [salt, sha256Hex (password ++ salt)] := by
  have hdata : (hash_password password salt).data =
      salt.data ++ ':' :: (sha256Hex (password ++ salt)).data := by
    show (salt ++ ":" ++ sha256Hex (password ++ salt)).data = _
    simp [String.data_append]
  have hnc : ':' ∉ (sha256Hex (password ++ salt)).data :=
    colon_not_mem_hexOfBytes (digestBytes (sha256Words (utf8Bytes (password ++ salt))))
  unfold pySplit
  rw [hdata, splitOnChar_append hs, splitOnChar_of_not_mem hnc]
  rfl

theorem length_filter_partition {α : Type} (p : α → Bool) (l : List α) :
    (l.filter p).length = l.length - (l.filter (fun x => !(p x))).length := by
  induction l with
  | nil => rfl
  | cons x xs ih =>
    have hle : (xs.filter (fun x => !(p x))).length ≤ xs.length :=
      List.length_filter_le _ xs
    cases hx : p x with
    | true =>
      simp [List.filter_cons, hx, ih]
      omega
    | false =>
      simp [List.filter_cons, hx, ih]

theorem find?_append_of_none {α : Type} {p : α → Bool} {l₁ l₂ : List α}
    (h : l₁.find? p = none) : (l₁ ++ l₂).find? p = l₂.find? p := by
  rw [List.find?_append, h, Option.none_or]

set_option maxRecDepth 4000000 in
/-- FIPS 180-4 test vector: SHA-256 of the empty message. -/
theorem sha256Hex_empty_vector :
    sha256Hex "" = "e3b0c44298fc1c149afbf4c8996fb92427ae41e4649b934ca495991b7852b855" := by
  decide

set_option maxRecDepth 4000000 in
/-- FIPS 180-4 test vector: SHA-256 of `"abc"`. -/
theorem sha256Hex_abc_vector :
    sha256Hex "abc" = "ba7816bf8f01cfea414140de5dae2223b00361a396177a9cb410ff61f20015ad" := by
  decide

set_option maxRecDepth 4000000 in
/-- FIPS 180-4 test vector: the 56-byte two-block message, exercising the
padding and chunking path. -/
theorem sha256Hex_two_block_vector :
    sha256Hex "abcdbcdecdefdefgefghfghighijhijkijkljklmklmnlmnomnopnopq" =
      "248d6a61d20638b8e5c026930c3e6039a33ce45964ff2167f6ecedd419db06c1" := by
  decide

theorem submit_vote_fresh (s : Db) (day meal dish ip ua : String) (now : Nat)
    (sid : String) (hday : day ≠ "") (hmeal : meal ≠ "") (hdish : dish ≠ "")
    (hfresh : s.votes.find? (voteKey day meal ip ua) = none) :
    submit_vote s day meal dish ip ua now sid =
      (VoteResult.success s.next_vote_id,
       { s with votes := s.votes ++ [newVote s day meal dish ip ua now sid],
                next_vote_id := s.next_vote_id + 1 }) := by
  have hany : s.votes.any (voteKey day meal ip ua) = false := by
    rw [List.any_eq_false]
    intro x hx
    have := List.find?_eq_none.mp hfresh x hx
    simpa using this
  unfold voteKey at hfresh hany
  unfold submit_vote submit_vote_race insert_vote newVote
  simp only [if_neg hday, if_neg hmeal, if_neg hdish, hfresh, hany]
  simp

theorem submit_vote_dup (s : Db) (day meal dish ip ua : String) (now : Nat)
    (sid : String) (hday : day ≠ "") (hmeal : meal ≠ "") (hdish : dish ≠ "")
    (v : Vote) (hfound : s.votes.find? (voteKey day meal ip ua) = some v) :
    submit_vote s day meal dish ip ua now sid = (VoteResult.duplicateVote, s) := by
  unfold voteKey at hfound
  unfold submit_vote submit_vote_race
  simp only [if_neg hday, if_neg hmeal, if_neg hdish, hfound]

theorem votesUnique_append_fresh {l : List Vote} {v : Vote} (h : VotesUnique l)
    (hv : ∀ x ∈ l, ¬ (x.day = v.day ∧ x.meal = v.meal ∧
                      x.user_identifier = v.user_identifier)) :
    VotesUnique (l ++ [v]) := by
  refine List.pairwise_append.mpr ⟨h, List.pairwise_singleton _ _, ?_⟩
  intro a ha b hb
  have hb1 : b = v := by simpa using hb
  subst hb1
  exact hv a ha

theorem submit_vote_race_preserves_unique (sCheck sInsert : Db)
    (day meal dish ip ua : String) (now : Nat) (sid : String)
    (h : VotesUnique sInsert.votes) :
    VotesUnique (submit_vote_race sCheck sInsert day meal dish ip ua now sid).2.votes := by
  by_cases hday : day = ""
  · simpa [submit_vote_race, hday] using h
  by_cases hmeal : meal = ""
  · simpa [submit_vote_race, hday, hmeal] using h
  by_cases hdish : dish = ""
  · simpa [submit_vote_race, hday, hmeal, hdish] using h
  rcases hfind : sCheck.votes.find? (voteKey day meal ip ua) with _ | v
  · unfold voteKey at hfind
    by_cases hany : sInsert.votes.any (voteKey day meal ip ua) = true
    · unfold voteKey at hany
      simpa [submit_vote_race, insert_vote, hday, hmeal, hdish, hfind, hany] using h
    · have hany2 : sInsert.votes.any (voteKey day meal ip ua) = false :=
        Bool.not_eq_true _ ▸ hany
      have hnone : ∀ x ∈ sInsert.votes, ¬ voteKey day meal ip ua x = true :=
        List.any_eq_false.mp hany2
      unfold voteKey at hany2
      have hgoal : (submit_vote_race sCheck sInsert day meal dish ip ua now sid).2.votes =
          sInsert.votes ++ [newVote sInsert day meal dish ip ua now sid] := by
        unfold submit_vote_race insert_vote newVote
        simp only [if_neg hday, if_neg hmeal, if_neg hdish, hfind, hany2,
          Bool.false_eq_true, if_neg (fun hc : False => hc)]
      rw [hgoal]
      refine votesUnique_append_fresh h ?_
      intro x hx
      have := hnone x hx
      simp only [voteKey, Bool.and_eq_true, beq_iff_eq, not_and] at this
      rintro ⟨h1, h2, h3⟩
      simp only [newVote] at h1 h2 h3
      exact this ⟨h1, h2⟩ h3
  · unfold voteKey at hfind
    simpa [submit_vote_race, hday, hmeal, hdish, hfind] using h

theorem verify_password_roundtrip (p salt : String) (h : ':' ∉ salt.data) :
    verify_password p (hash_password p salt) = true := by
  unfold verify_password
  rw [pySplit_hash_password p salt h]
  simp

theorem cleanup_idem (now : Nat) (s : Db) :
    (cleanup_expired_sessions now (cleanup_expired_sessions now s).2).2 =
      (cleanup_expired_sessions now s).2 := by
  have hff : ∀ l : List AdminSession,
      (l.filter (fun x => ¬ x.expires_at < now)).filter (fun x => ¬ x.expires_at < now) =
        l.filter (fun x => ¬ x.expires_at < now) := by
    intro l
    rw [List.filter_filter]
    congr 1
    funext x
    exact Bool.and_self _
  unfold cleanup_expired_sessions
  simp [hff]

theorem require_admin_auth_state (now : Nat) (hdr : Option Token) (s : Db) :
    (require_admin_auth now hdr s).2 = (cleanup_expired_sessions now s).2 := by
  unfold require_admin_auth
  rcases hdr with _ | tok
  · rfl
  · rcases hv : verify_jwt_token tok now with _ | aid
    · simp [hv]
    · by_cases haid : aid = 0
      · simp [hv, haid]
      · rcases hf : (cleanup_expired_sessions now s).2.admin_users.find?
            (fun a => a.id == aid) with _ | adm
        · simp [hv, haid, hf]
        · by_cases hact : adm.is_active
          · simp [hv, haid, hf, hact]
          · simp [hv, haid, hf, hact]

/-! ## Claim theorems -/

/-- Claim C1: for a valid `(day, meal, dish, ip, user_agent)` tuple whose
`(day, meal, identity)` key is fresh, a first `submit_vote` succeeds and
appends exactly one `Vote` row; a second `submit_vote` with the same day,
meal, and the identity derived from the same `(ip, user_agent)` fails with
`DUPLICATE_VOTE` and leaves the store untouched, even if the dish differs;
and every `submit_vote` (even with check and insert racing on different
store snapshots) preserves the invariant that no two `Vote` rows share the
`(day, meal, user_identifier)` triple. -/
theorem C1_submit_vote_dedup (s : Db) (day meal dish dish2 ip ua : String)
    (now now2 : Nat) (sid sid2 : String)
    (hday : day ≠ "") (hmeal : meal ≠ "") (hdish : dish ≠ "") (hdish2 : dish2 ≠ "")
    (hfresh : s.votes.find? (voteKey day meal ip ua) = none) :
    (submit_vote s day meal dish ip ua now sid).1 = VoteResult.success s.next_vote_id ∧
    (submit_vote s day meal dish ip ua now sid).2.votes =
      s.votes ++ [newVote s day meal dish ip ua now sid] ∧
    submit_vote (submit_vote s day meal dish ip ua now sid).2 day meal dish2 ip ua
        now2 sid2 =
      (VoteResult.duplicateVote, (submit_vote s day meal dish ip ua now sid).2) ∧
    (∀ (sCheck sInsert : Db) (d m di i u : String) (n : Nat) (sd : String),
      VotesUnique sInsert.votes →
      VotesUnique (submit_vote_race sCheck sInsert d m di i u n sd).2.votes) := by
  have h1 := submit_vote_fresh s day meal dish ip ua now sid hday hmeal hdish hfresh
  refine ⟨by rw [h1], by rw [h1], ?_, ?_⟩
  · have hfind2 : (submit_vote s day meal dish ip ua now sid).2.votes.find?
        (voteKey day meal ip ua) = some (newVote s day meal dish ip ua now sid) := by
      rw [h1]
      show (s.votes ++ [newVote s day meal dish ip ua now sid]).find? _ = _
      rw [find?_append_of_none hfresh]
      simp [List.find?, voteKey, newVote]
    exact submit_vote_dup _ day meal dish2 ip ua now2 sid2 hday hmeal hdish2 _ hfind2
  · intro sCheck sInsert d m di i u n sd hu
    exact submit_vote_race_preserves_unique sCheck sInsert d m di i u n sd hu

/-- Witness for C1 on a concrete empty store. -/
theorem C1_witness :
    (("monday" : String) ≠ "" ∧ ("lunch" : String) ≠ "" ∧ ("rice" : String) ≠ "" ∧
     ("dal" : String) ≠ "" ∧
     (Db.mk [] [] [] 1 1).votes.find? (voteKey "monday" "lunch" "1.2.3.4" "ua") = none) ∧
    (submit_vote (Db.mk [] [] [] 1 1) "monday" "lunch" "rice" "1.2.3.4" "ua" 0 "sid").1 =
      VoteResult.success 1 ∧
    submit_vote (submit_vote (Db.mk [] [] [] 1 1) "monday" "lunch" "rice" "1.2.3.4"
        "ua" 0 "sid").2 "monday" "lunch" "dal" "1.2.3.4" "ua" 5 "sid2" =
      (VoteResult.duplicateVote,
       (submit_vote (Db.mk [] [] [] 1 1) "monday" "lunch" "rice" "1.2.3.4" "ua" 0 "sid").2) := by
  have h := C1_submit_vote_dedup (Db.mk [] [] [] 1 1) "monday" "lunch" "rice" "dal"
    "1.2.3.4" "ua" 0 5 "sid" "sid2" (by decide) (by decide) (by decide) (by decide) rfl
  exact ⟨⟨by decide, by decide, by decide, by decide, rfl⟩, h.1, h.2.2.1⟩

/-- Claim C4: `submit_vote` lower-cases `day` and `meal` before both the
uniqueness check and storage: the persisted row carries the lower-cased day
and meal, and a later submission whose day/meal are any case variants of the
same pair (same identity) is rejected with `DUPLICATE_VOTE` and persists
nothing. -/
theorem C4_case_normalization (s : Db) (day day2 meal meal2 dish dish2 ip ua : String)
    (now now2 : Nat) (sid sid2 : String)
    (hday : day ≠ "") (hmeal : meal ≠ "") (hdish : dish ≠ "")
    (hday2 : day2 ≠ "") (hmeal2 : meal2 ≠ "") (hdish2 : dish2 ≠ "")
    (hdEq : pyLower day2 = pyLower day) (hmEq : pyLower meal2 = pyLower meal)
    (hfresh : s.votes.find? (voteKey day meal ip ua) = none) :
    (submit_vote s day meal dish ip ua now sid).1 = VoteResult.success s.next_vote_id ∧
    (submit_vote s day meal dish ip ua now sid).2.votes =
      s.votes ++ [newVote s day meal dish ip ua now sid] ∧
    (newVote s day meal dish ip ua now sid).day = pyLower day ∧
    (newVote s day meal dish ip ua now sid).meal = pyLower meal ∧
    submit_vote (submit_vote s day meal dish ip ua now sid).2 day2 meal2 dish2 ip ua
        now2 sid2 =
      (VoteResult.duplicateVote, (submit_vote s day meal dish ip ua now sid).2) := by
  have h1 := submit_vote_fresh s day meal dish ip ua now sid hday hmeal hdish hfresh
  have hkey : voteKey day2 meal2 ip ua = voteKey day meal ip ua := by
    funext v
    simp [voteKey, hdEq, hmEq]
  refine ⟨by rw [h1], by rw [h1], rfl, rfl, ?_⟩
  have hfind2 : (submit_vote s day meal dish ip ua now sid).2.votes.find?
      (voteKey day2 meal2 ip ua) = some (newVote s day meal dish ip ua now sid) := by
    rw [h1, hkey]
    show (s.votes ++ [newVote s day meal dish ip ua now sid]).find? _ = _
    rw [find?_append_of_none hfresh]
    simp [List.find?, voteKey, newVote]
  exact submit_vote_dup _ day2 meal2 dish2 ip ua now2 sid2 hday2 hmeal2 hdish2 _ hfind2

/-- Witness for C4 with the spec's `"Monday"` / `"monday"` case variants. -/
theorem C4_witness :
    (pyLower "Monday" = pyLower "monday" ∧ pyLower "Lunch" = pyLower "lunch" ∧
     (Db.mk [] [] [] 1 1).votes.find? (voteKey "monday" "lunch" "1.2.3.4" "ua") = none) ∧
    (submit_vote (Db.mk [] [] [] 1 1) "monday" "lunch" "rice" "1.2.3.4" "ua" 0 "sid").1 =
      VoteResult.success 1 ∧
    submit_vote (submit_vote (Db.mk [] [] [] 1 1) "monday" "lunch" "rice" "1.2.3.4"
        "ua" 0 "sid").2 "Monday" "Lunch" "dal" "1.2.3.4" "ua" 5 "sid2" =
      (VoteResult.duplicateVote,
       (submit_vote (Db.mk [] [] [] 1 1) "monday" "lunch" "rice" "1.2.3.4" "ua" 0 "sid").2) := by
  have h := C4_case_normalization (Db.mk [] [] [] 1 1) "monday" "Monday" "lunch" "Lunch"
    "rice" "dal" "1.2.3.4" "ua" 0 5 "sid" "sid2" (by decide) (by decide) (by decide)
    (by decide) (by decide) (by decide) (by decide) (by decide) rfl
  exact ⟨⟨by decide, by decide, rfl⟩, h.1, h.2.2.2.2⟩

set_option maxRecDepth 4000000 in
/-- Claim C5, counterexample: when the duplicate pre-check sees a store
without the key but the insert hits a store where a concurrent request has
already committed the same `(day, meal, identity)` row, the unique-constraint
failure is answered as `INTERNAL_ERROR`, not as `DUPLICATE_VOTE`. -/
theorem C5_counterexample :
    (submit_vote_race (Db.mk [] [] [] 2 1)
        (Db.mk [Vote.mk 1 "monday" "lunch" "rice"
            (create_user_identifier "1.2.3.4" "ua" none) "1.2.3.4" 0 "sid"] [] [] 2 1)
        "monday" "lunch" "dal" "1.2.3.4" "ua" 5 "sid2").1 = VoteResult.internalError ∧
    (submit_vote_race (Db.mk [] [] [] 2 1)
        (Db.mk [Vote.mk 1 "monday" "lunch" "rice"
            (create_user_identifier "1.2.3.4" "ua" none) "1.2.3.4" 0 "sid"] [] [] 2 1)
        "monday" "lunch" "dal" "1.2.3.4" "ua" 5 "sid2").1 ≠ VoteResult.duplicateVote := by
  constructor <;> decide

/-- Claim C5 as amended: a storage-layer uniqueness failure during the insert
is caught by the `except Exception` handler, which rolls back and reports the
generic `INTERNAL_ERROR` (HTTP 500) — never a raw storage error, but also not
`DUPLICATE_VOTE`. -/
theorem C5_storage_failure_internal_error (sCheck sInsert : Db)
    (day meal dish ip ua : String) (now : Nat) (sid : String)
    (hday : day ≠ "") (hmeal : meal ≠ "") (hdish : dish ≠ "")
    (hcheck : sCheck.votes.find? (voteKey day meal ip ua) = none)
    (hconflict : sInsert.votes.any (voteKey day meal ip ua) = true) :
    submit_vote_race sCheck sInsert day meal dish ip ua now sid =
      (VoteResult.internalError, sInsert) := by
  unfold voteKey at hcheck hconflict
  unfold submit_vote_race insert_vote
  simp only [if_neg hday, if_neg hmeal, if_neg hdish, hcheck, hconflict, if_true]

set_option maxRecDepth 4000000 in
/-- Witness for the amended C5 on a concrete racing pair of store states. -/
theorem C5_witness :
    ((Db.mk [] [] [] 2 1).votes.find? (voteKey "monday" "lunch" "1.2.3.4" "ua") = none ∧
     (Db.mk [Vote.mk 1 "monday" "lunch" "rice"
         (create_user_identifier "1.2.3.4" "ua" none) "1.2.3.4" 0 "sid"] [] [] 2 1).votes.any
       (voteKey "monday" "lunch" "1.2.3.4" "ua") = true) ∧
    submit_vote_race (Db.mk [] [] [] 2 1)
        (Db.mk [Vote.mk 1 "monday" "lunch" "rice"
            (create_user_identifier "1.2.3.4" "ua" none) "1.2.3.4" 0 "sid"] [] [] 2 1)
        "monday" "lunch" "dal" "1.2.3.4" "ua" 5 "sid2" =
      (VoteResult.internalError,
       Db.mk [Vote.mk 1 "monday" "lunch" "rice"
           (create_user_identifier "1.2.3.4" "ua" none) "1.2.3.4" 0 "sid"] [] [] 2 1) := by
  refine ⟨⟨rfl, by decide⟩, ?_⟩
  exact C5_storage_failure_internal_error _ _ "monday" "lunch" "dal" "1.2.3.4" "ua" 5 "sid2"
    (by decide) (by decide) (by decide) rfl (by decide)

/-- Claim C9: `check_vote_status` mutates nothing; with the same case
normalization and identity derivation as `submit_vote` it answers
`has_voted = false` with no details exactly when no vote is stored under the
normalized key, answers the stored vote after one has been submitted, and is
invariant under case variants of `day` and `meal`. -/
theorem C9_check_vote_status_spec (s : Db) (day meal ip ua : String) :
    (check_vote_status s day meal ip ua).2 = s ∧
    (day ≠ "" → meal ≠ "" →
      ((s.votes.find? (voteKey day meal ip ua) = none →
          (check_vote_status s day meal ip ua).1 = CheckResult.status false none) ∧
       (∀ v, s.votes.find? (voteKey day meal ip ua) = some v →
          (check_vote_status s day meal ip ua).1 = CheckResult.status true (some v)) ∧
       (∀ day2 meal2, day2 ≠ "" → meal2 ≠ "" →
          pyLower day2 = pyLower day → pyLower meal2 = pyLower meal →
          check_vote_status s day2 meal2 ip ua = check_vote_status s day meal ip ua) ∧
       (∀ dish sid now2, dish ≠ "" → s.votes.find? (voteKey day meal ip ua) = none →
          (check_vote_status (submit_vote s day meal dish ip ua now2 sid).2
              day meal ip ua).1 =
            CheckResult.status true (some (newVote s day meal dish ip ua now2 sid))))) := by
  constructor
  · unfold check_vote_status
    by_cases hday : day = ""
    · simp [hday]
    by_cases hmeal : meal = ""
    · simp [hday, hmeal]
    rcases hf : s.votes.find? (fun v => v.day == pyLower day && v.meal == pyLower meal &&
        v.user_identifier == create_user_identifier ip ua none) with _ | v
    · simp [hday, hmeal, hf]
    · simp [hday, hmeal, hf]
  · intro hday hmeal
    refine ⟨?_, ?_, ?_, ?_⟩
    · intro hnone
      unfold voteKey at hnone
      simp [check_vote_status, hday, hmeal, hnone]
    · intro v hsome
      unfold voteKey at hsome
      simp [check_vote_status, hday, hmeal, hsome]
    · intro day2 meal2 hday2 hmeal2 hdEq hmEq
      unfold check_vote_status
      simp only [if_neg hday, if_neg hmeal, if_neg hday2, if_neg hmeal2, hdEq, hmEq]
    · intro dish sid now2 hdish hnone
      have h1 := submit_vote_fresh s day meal dish ip ua now2 sid hday hmeal hdish hnone
      have hfind2 : (submit_vote s day meal dish ip ua now2 sid).2.votes.find?
          (voteKey day meal ip ua) = some (newVote s day meal dish ip ua now2 sid) := by
        rw [h1]
        show (s.votes ++ [newVote s day meal dish ip ua now2 sid]).find? _ = _
        rw [find?_append_of_none hnone]
        simp [List.find?, voteKey, newVote]
      unfold voteKey at hfind2
      simp [check_vote_status, hday, hmeal, hfind2]

/-- Witness for C9 on a concrete store. -/
theorem C9_witness :
    ((check_vote_status (Db.mk [] [] [] 1 1) "monday" "lunch" "1.2.3.4" "ua").2 =
      Db.mk [] [] [] 1 1) ∧
    (("monday" : String) ≠ "" ∧ ("lunch" : String) ≠ "" ∧
     (Db.mk [] [] [] 1 1).votes.find? (voteKey "monday" "lunch" "1.2.3.4" "ua") = none) ∧
    (check_vote_status (Db.mk [] [] [] 1 1) "monday" "lunch" "1.2.3.4" "ua").1 =
      CheckResult.status false none ∧
    (check_vote_status (submit_vote (Db.mk [] [] [] 1 1) "monday" "lunch" "rice"
        "1.2.3.4" "ua" 0 "sid").2 "monday" "lunch" "1.2.3.4" "ua").1 =
      CheckResult.status true
        (some (newVote (Db.mk [] [] [] 1 1) "monday" "lunch" "rice" "1.2.3.4" "ua" 0 "sid")) := by
  have h := C9_check_vote_status_spec (Db.mk [] [] [] 1 1) "monday" "lunch" "1.2.3.4" "ua"
  have h2 := h.2 (by decide) (by decide)
  exact ⟨h.1, ⟨by decide, by decide, rfl⟩, h2.1 rfl,
    h2.2.2.2 "rice" "sid" 0 (by decide) rfl⟩

/-- Claim C10: the session sweep deletes exactly the `AdminSession` rows whose
`expires_at` is strictly before `now` — every expired row is removed, no row
with `expires_at ≥ now` is removed, nothing outside `admin_sessions` changes,
and the returned count equals the number of rows deleted. -/
theorem C10_cleanup_expired_sessions_spec (now : Nat) (s : Db) :
    ((cleanup_expired_sessions now s).2.votes = s.votes) ∧
    ((cleanup_expired_sessions now s).2.admin_users = s.admin_users) ∧
    (∀ x ∈ s.admin_sessions, x.expires_at < now →
        x ∉ (cleanup_expired_sessions now s).2.admin_sessions) ∧
    (∀ x ∈ s.admin_sessions, ¬ x.expires_at < now →
        x ∈ (cleanup_expired_sessions now s).2.admin_sessions) ∧
    (∀ x ∈ (cleanup_expired_sessions now s).2.admin_sessions,
        x ∈ s.admin_sessions ∧ ¬ x.expires_at < now) ∧
    ((cleanup_expired_sessions now s).1 =
        s.admin_sessions.length - (cleanup_expired_sessions now s).2.admin_sessions.length) := by
  refine ⟨rfl, rfl, ?_, ?_, ?_, ?_⟩
  · intro x hx hlt hmem
    have h2 := (List.mem_filter.mp hmem).2
    simp at h2
    omega
  · intro x hx hge
    exact List.mem_filter.mpr ⟨hx, by simpa using hge⟩
  · intro x hmem
    have h1 := List.mem_filter.mp hmem
    refine ⟨h1.1, ?_⟩
    have h2 := h1.2
    simp at h2
    omega
  · show (s.admin_sessions.filter (fun x => x.expires_at < now)).length =
      s.admin_sessions.length -
        (s.admin_sessions.filter (fun x => ¬ x.expires_at < now)).length
    have h := length_filter_partition (fun x : AdminSession => decide (x.expires_at < now))
      s.admin_sessions
    have hfun : (fun x : AdminSession => !decide (x.expires_at < now)) =
        (fun x : AdminSession => decide (¬ x.expires_at < now)) := by
      funext x
      by_cases hx : x.expires_at < now
      · simp [hx]
      · simp [hx]
    rw [hfun] at h
    exact h

/-- Witness for C10 on a store with one expired and one live session. -/
theorem C10_witness :
    ((AdminSession.mk 1 1 (Token.garbage "t1") 0 50 "ip") ∈
        (Db.mk [] [] [AdminSession.mk 1 1 (Token.garbage "t1") 0 50 "ip",
                      AdminSession.mk 2 1 (Token.garbage "t2") 0 150 "ip"] 1 3).admin_sessions ∧
     (AdminSession.mk 1 1 (Token.garbage "t1") 0 50 "ip").expires_at < 100 ∧
     ¬ (AdminSession.mk 2 1 (Token.garbage "t2") 0 150 "ip").expires_at < 100) ∧
    (AdminSession.mk 1 1 (Token.garbage "t1") 0 50 "ip") ∉
      (cleanup_expired_sessions 100
        (Db.mk [] [] [AdminSession.mk 1 1 (Token.garbage "t1") 0 50 "ip",
                      AdminSession.mk 2 1 (Token.garbage "t2") 0 150 "ip"] 1 3)).2.admin_sessions ∧
    (AdminSession.mk 2 1 (Token.garbage "t2") 0 150 "ip") ∈
      (cleanup_expired_sessions 100
        (Db.mk [] [] [AdminSession.mk 1 1 (Token.garbage "t1") 0 50 "ip",
                      AdminSession.mk 2 1 (Token.garbage "t2") 0 150 "ip"] 1 3)).2.admin_sessions ∧
    (cleanup_expired_sessions 100
        (Db.mk [] [] [AdminSession.mk 1 1 (Token.garbage "t1") 0 50 "ip",
                      AdminSession.mk 2 1 (Token.garbage "t2") 0 150 "ip"] 1 3)).1 = 1 := by
  have h := C10_cleanup_expired_sessions_spec 100
    (Db.mk [] [] [AdminSession.mk 1 1 (Token.garbage "t1") 0 50 "ip",
                  AdminSession.mk 2 1 (Token.garbage "t2") 0 150 "ip"] 1 3)
  refine ⟨⟨by decide, by decide, by decide⟩, ?_, ?_, ?_⟩
  · exact h.2.2.1 _ (by decide) (by decide)
  · exact h.2.2.2.1 _ (by decide) (by decide)
  · rw [h.2.2.2.2.2]
    decide

/-- Claim C3: `require_admin_auth` (the token validator guarding every
protected route) first sweeps: its resulting store has exactly the
non-expired sessions, and re-running it on the already swept store changes
nothing; and a token whose stored session is expired (`now > expires_at`,
with the JWT `exp` not after the session's `expires_at`, as `admin_login`
issues them) is rejected with `INVALID_TOKEN` — by the same decision the
validator takes on any store in which that session is absent. -/
theorem C3_validate_sweep_spec (now : Nat) (hdr : Option Token) (s : Db) :
    ((require_admin_auth now hdr s).2.admin_sessions =
       s.admin_sessions.filter (fun x => ¬ x.expires_at < now)) ∧
    (require_admin_auth now hdr (cleanup_expired_sessions now s).2 =
       require_admin_auth now hdr s) ∧
    (∀ admin_id exp sess, sess ∈ s.admin_sessions →
       hdr = some (Token.signed admin_id exp) → sess.token = Token.signed admin_id exp →
       exp ≤ sess.expires_at → sess.expires_at < now →
       ((require_admin_auth now hdr s).1 = AuthResult.invalidToken ∧
        ∀ t : Db, (require_admin_auth now hdr t).1 = AuthResult.invalidToken)) := by
  refine ⟨?_, ?_, ?_⟩
  · rw [require_admin_auth_state]
    rfl
  · have hidem := cleanup_idem now s
    unfold require_admin_auth
    rw [hidem]
  · rintro admin_id exp sess hmem rfl htok hle hlt
    have hnow : exp ≤ now := Nat.le_of_lt (Nat.lt_of_le_of_lt hle hlt)
    have hall : ∀ t : Db,
        (require_admin_auth now (some (Token.signed admin_id exp)) t).1 =
          AuthResult.invalidToken := by
      intro t
      unfold require_admin_auth verify_jwt_token
      simp [hnow]
    exact ⟨hall s, hall⟩

/-- Witness for C3 on a store holding one expired session and its token. -/
theorem C3_witness :
    ((AdminSession.mk 1 1 (Token.signed 1 100) 0 100 "ip") ∈
        (Db.mk [] [] [AdminSession.mk 1 1 (Token.signed 1 100) 0 100 "ip"] 1 2).admin_sessions ∧
     (100 : Nat) ≤ 100 ∧ (100 : Nat) < 200) ∧
    (require_admin_auth 200 (some (Token.signed 1 100))
        (Db.mk [] [] [AdminSession.mk 1 1 (Token.signed 1 100) 0 100 "ip"] 1 2)).1 =
      AuthResult.invalidToken ∧
    (require_admin_auth 200 (some (Token.signed 1 100))
        (Db.mk [] [] [AdminSession.mk 1 1 (Token.signed 1 100) 0 100 "ip"] 1 2)).2.admin_sessions =
      [] := by
  have h := C3_validate_sweep_spec 200 (some (Token.signed 1 100))
    (Db.mk [] [] [AdminSession.mk 1 1 (Token.signed 1 100) 0 100 "ip"] 1 2)
  have h3 := h.2.2 1 100 (AdminSession.mk 1 1 (Token.signed 1 100) 0 100 "ip")
    (by decide) rfl rfl (by decide) (by decide)
  refine ⟨⟨by decide, by decide, by decide⟩, h3.1, ?_⟩
  rw [h.1]
  decide

/-- Claim C6: `admin_login` answers `INVALID_CREDENTIALS` for an unknown
username or a password that does not verify, and `ACCOUNT_DISABLED` for an
existing principal with a verifying password that is inactive; in every
failing case the store is returned unchanged — no session row, no token, no
`last_login` update. -/
theorem C6_login_failure_spec (now : Nat) (username password ip : String) (s : Db) :
    (s.admin_users.find? (fun a => a.username == username) = none →
      admin_login now username password ip s = (LoginResult.invalidCredentials, s)) ∧
    (∀ admin, s.admin_users.find? (fun a => a.username == username) = some admin →
      verify_password password admin.password_hash = false →
      admin_login now username password ip s = (LoginResult.invalidCredentials, s)) ∧
    (∀ admin, s.admin_users.find? (fun a => a.username == username) = some admin →
      verify_password password admin.password_hash = true →
      admin.is_active = false →
      admin_login now username password ip s = (LoginResult.accountDisabled, s)) := by
  refine ⟨?_, ?_, ?_⟩
  · intro hf
    simp [admin_login, hf]
  · intro admin hf hv
    simp [admin_login, hf, hv]
  · intro admin hf hv ha
    simp [admin_login, hf, hv, ha]

/-- Witness for C6: unknown user, wrong password, and a disabled account. -/
theorem C6_witness :
    ((Db.mk [] [AdminUser.mk 1 "alice" "malformed" "" 0 none true,
               AdminUser.mk 2 "bob" (hash_password "pw1234" "ab") "" 0 none false]
        [] 1 1).admin_users.find? (fun a => a.username == "carol") = none ∧
     verify_password "x" "malformed" = false ∧
     (AdminUser.mk 2 "bob" (hash_password "pw1234" "ab") "" 0 none false).is_active = false) ∧
    admin_login 7 "carol" "x" "ip"
        (Db.mk [] [AdminUser.mk 1 "alice" "malformed" "" 0 none true,
                   AdminUser.mk 2 "bob" (hash_password "pw1234" "ab") "" 0 none false] [] 1 1) =
      (LoginResult.invalidCredentials,
       Db.mk [] [AdminUser.mk 1 "alice" "malformed" "" 0 none true,
                 AdminUser.mk 2 "bob" (hash_password "pw1234" "ab") "" 0 none false] [] 1 1) ∧
    admin_login 7 "alice" "x" "ip"
        (Db.mk [] [AdminUser.mk 1 "alice" "malformed" "" 0 none true,
                   AdminUser.mk 2 "bob" (hash_password "pw1234" "ab") "" 0 none false] [] 1 1) =
      (LoginResult.invalidCredentials,
       Db.mk [] [AdminUser.mk 1 "alice" "malformed" "" 0 none true,
                 AdminUser.mk 2 "bob" (hash_password "pw1234" "ab") "" 0 none false] [] 1 1) ∧
    admin_login 7 "bob" "pw1234" "ip"
        (Db.mk [] [AdminUser.mk 1 "alice" "malformed" "" 0 none true,
                   AdminUser.mk 2 "bob" (hash_password "pw1234" "ab") "" 0 none false] [] 1 1) =
      (LoginResult.accountDisabled,
       Db.mk [] [AdminUser.mk 1 "alice" "malformed" "" 0 none true,
                 AdminUser.mk 2 "bob" (hash_password "pw1234" "ab") "" 0 none false] [] 1 1) := by
  have h1 := C6_login_failure_spec 7 "carol" "x" "ip"
    (Db.mk [] [AdminUser.mk 1 "alice" "malformed" "" 0 none true,
               AdminUser.mk 2 "bob" (hash_password "pw1234" "ab") "" 0 none false] [] 1 1)
  have h2 := C6_login_failure_spec 7 "alice" "x" "ip"
    (Db.mk [] [AdminUser.mk 1 "alice" "malformed" "" 0 none true,
               AdminUser.mk 2 "bob" (hash_password "pw1234" "ab") "" 0 none false] [] 1 1)
  have h3 := C6_login_failure_spec 7 "bob" "pw1234" "ip"
    (Db.mk [] [AdminUser.mk 1 "alice" "malformed" "" 0 none true,
               AdminUser.mk 2 "bob" (hash_password "pw1234" "ab") "" 0 none false] [] 1 1)
  refine ⟨⟨rfl, by decide, rfl⟩, h1.1 rfl, h2.2.1 _ rfl (by decide), ?_⟩
  exact h3.2.2 _ rfl (verify_password_roundtrip "pw1234" "ab" (by decide)) rfl

/-- Claim C7: the identity deriver is pure and deterministic — its output is
the first 32 hex characters of the SHA-256 hex digest of `"{ip}:{ua}"`
(with `":{extra}"` appended when a non-empty extra is present), it always has
length 32, and identical arguments always give identical output. -/
theorem C7_create_user_identifier_spec (ip ua : String) (extra : Option String) :
    (extra = none → create_user_identifier ip ua extra =
        pySlice (sha256Hex (ip ++ ":" ++ ua)) 32) ∧
    (∀ e, extra = some e → e ≠ "" → create_user_identifier ip ua extra =
        pySlice (sha256Hex (ip ++ ":" ++ ua ++ ":" ++ e)) 32) ∧
    (create_user_identifier ip ua extra).length = 32 ∧
    (∀ ip2 ua2 extra2, ip2 = ip → ua2 = ua → extra2 = extra →
        create_user_identifier ip2 ua2 extra2 = create_user_identifier ip ua extra) := by
  have h32 : ∀ str : String, (pySlice (sha256Hex str) 32).length = 32 := by
    intro str
    rw [length_pySlice, length_sha256Hex]
    decide
  refine ⟨?_, ?_, ?_, ?_⟩
  · rintro rfl
    rfl
  · rintro e rfl he
    simp [create_user_identifier, he]
  · unfold create_user_identifier
    rcases extra with _ | e
    · exact h32 _
    · by_cases he : e = "" <;> simp [he, h32]
  · rintro ip2 ua2 extra2 rfl rfl rfl
    rfl

/-- Witness for C7 at concrete inputs. -/
theorem C7_witness :
    ((none : Option String) = none ∧ ("x" : String) ≠ "") ∧
    create_user_identifier "1.2.3.4" "ua" none =
      pySlice (sha256Hex ("1.2.3.4" ++ ":" ++ "ua")) 32 ∧
    create_user_identifier "1.2.3.4" "ua" (some "x") =
      pySlice (sha256Hex ("1.2.3.4" ++ ":" ++ "ua" ++ ":" ++ "x")) 32 ∧
    (create_user_identifier "1.2.3.4" "ua" none).length = 32 := by
  have h1 := C7_create_user_identifier_spec "1.2.3.4" "ua" none
  have h2 := C7_create_user_identifier_spec "1.2.3.4" "ua" (some "x")
  exact ⟨⟨rfl, by decide⟩, h1.1 rfl, h2.2.1 "x" rfl (by decide), h1.2.2.1⟩

/-- Claim C8: `verify_password` is total (a Lean function returning `Bool`,
the embedded `except ValueError` branch) and fails closed — any stored hash
that does not split into exactly two `:`-separated fields verifies as
`false`; on a well-formed `salt:hash` it answers `true` exactly when
`sha256(password + salt)` equals the stored hash; and a password verifies
against its own `hash_password` output. -/
theorem C8_verify_password_spec (password stored : String) :
    ((pySplit stored ':').length ≠ 2 → verify_password password stored = false) ∧
    (∀ salt stored_hash, pySplit stored ':' = [salt, stored_hash] →
      (verify_password password stored = true ↔
        sha256Hex (password ++ salt) = stored_hash)) ∧
    (∀ salt, ':' ∉ salt.data →
      verify_password password (hash_password password salt) = true) := by
  refine ⟨?_, ?_, ?_⟩
  · intro hlen
    rcases hsp : pySplit stored ':' with _ | ⟨a, t⟩
    · simp [verify_password, hsp]
    · rcases t with _ | ⟨b, t2⟩
      · simp [verify_password, hsp]
      · rcases t2 with _ | ⟨c, t3⟩
        · exact absurd (by rw [hsp]; rfl) hlen
        · simp [verify_password, hsp]
  · intro salt stored_hash hsp
    unfold verify_password
    rw [hsp]
    simp
  · intro salt hns
    exact verify_password_roundtrip password salt hns

/-- Witness for C8: a malformed stored hash and a real round trip. -/
theorem C8_witness :
    ((pySplit "x" ':').length ≠ 2 ∧ ':' ∉ ("ab" : String).data) ∧
    verify_password "pw" "x" = false ∧
    verify_password "pw" (hash_password "pw" "ab") = true := by
  have h := C8_verify_password_spec "pw" "x"
  exact ⟨⟨by decide, by decide⟩, h.1 (by decide), h.2.2 "ab" (by decide)⟩

set_option maxRecDepth 8000000 in
/-- Claim C2, code-bug evidence: after a successful `change_password` every
`AdminSession` row for the principal is deleted, yet `require_admin_auth`
still accepts the JWT issued by the earlier login — the validator checks only
the JWT signature and `exp` and never consults the session table, so the old
token is not rejected until its own expiry, contradicting the required forced
re-authentication. -/
theorem C2_old_token_accepted_after_password_change :
    (admin_login 0 "admin" "oldpass1" "1.2.3.4"
        (Db.mk [] [AdminUser.mk 1 "admin" (hash_password "oldpass1" "00") "" 0 none true]
          [] 1 1)).1 = LoginResult.success (Token.signed 1 3600) 3600 1 ∧
    (change_password (AdminUser.mk 1 "admin" (hash_password "oldpass1" "00") "" 0 (some 0) true)
        "oldpass1" "newpass1" "11"
        (admin_login 0 "admin" "oldpass1" "1.2.3.4"
          (Db.mk [] [AdminUser.mk 1 "admin" (hash_password "oldpass1" "00") "" 0 none true]
            [] 1 1)).2).1 = PasswordResult.success ∧
    (change_password (AdminUser.mk 1 "admin" (hash_password "oldpass1" "00") "" 0 (some 0) true)
        "oldpass1" "newpass1" "11"
        (admin_login 0 "admin" "oldpass1" "1.2.3.4"
          (Db.mk [] [AdminUser.mk 1 "admin" (hash_password "oldpass1" "00") "" 0 none true]
            [] 1 1)).2).2.admin_sessions = [] ∧
    (require_admin_auth 100 (some (Token.signed 1 3600))
        (change_password (AdminUser.mk 1 "admin" (hash_password "oldpass1" "00") "" 0 (some 0) true)
          "oldpass1" "newpass1" "11"
          (admin_login 0 "admin" "oldpass1" "1.2.3.4"
            (Db.mk [] [AdminUser.mk 1 "admin" (hash_password "oldpass1" "00") "" 0 none true]
              [] 1 1)).2).2).1 =
      AuthResult.ok
        (AdminUser.mk 1 "admin" (hash_password "newpass1" "11") "" 0 (some 0) true) := by
  refine ⟨?_, ?_, ?_, ?_⟩ <;> decide

end MessPortal
